import Mathlib

/-!
Shallow embedding of the school-records manager (models.py, data_manager.py,
models_PyQt.py) for checking the natural-language specification.

Modelling conventions:
* Python objects refer to each other through object references; object
  identity is modelled by the unique business keys (`student_id`,
  `instructor_id`, `course_id`), so `registered_courses` etc. hold id
  strings standing for the referenced objects.  Membership tests (`in`)
  on those lists use Python object identity, which coincides with
  id-equality for distinct ids.
* Python exceptions are modelled with `Except String`; on an exception the
  exception propagates to the caller and the partially-mutated receiver is
  dropped (noted locally where the source mutates before raising).
* `sqlite3` tables are modelled as lists of rows; the PRIMARY KEY and
  FOREIGN KEY constraints (PRAGMA foreign_keys = ON, data_manager.py:31)
  are modelled by explicit checks in the insert operations, and the
  `ON DELETE CASCADE` / `SET NULL` actions explicitly in the deletes.
-/

/-- Python's `\s` character class for str patterns (models.py uses
`re.match(r'^\S+@\S+\.\S+$', email)`): ASCII whitespace plus the Unicode
whitespace code points Python treats as `\s`. -/
def pythonIsSpace (ch : Char) : Bool :=
  decide (ch.toNat ∈ [9, 10, 11, 12, 13, 28, 29, 30, 31, 32,
      0x85, 0xa0, 0x1680, 0x2028, 0x2029, 0x202f, 0x205f, 0x3000] ∨
    (0x2000 ≤ ch.toNat ∧ ch.toNat ≤ 0x200a))

/-- `\S+@\S+\.\S+` anchored at both ends over a list of characters: every
character is non-whitespace and there is an `@` at some position `i ≥ 1`
and a `.` at some position `j` with `i + 2 ≤ j` and at least one character
after `j`.  Backtracking makes the regex match exactly when such a
decomposition exists. -/
def matchesEmailPattern (cs : List Char) : Bool :=
  cs.all (fun ch => ! pythonIsSpace ch) &&
  decide (∃ i ∈ List.range cs.length, ∃ j ∈ List.range cs.length,
    1 ≤ i ∧ cs.get? i = some '@' ∧ i + 2 ≤ j ∧ cs.get? j = some '.' ∧
    j + 2 ≤ cs.length)

structure Person where
  name : String
  age : Int
  _email : String
deriving Repr, DecidableEq

/-- models.py `Person.validate_email`: `re.match(r'^\S+@\S+\.\S+$', email)`.
`re.match` anchors at the start, and `$` matches at the end of the string or
just before one final newline, so a single trailing newline is stripped
before matching the anchored pattern. -/
def Person.validate_email (email : String) : Bool :=
  let cs := email.data
  let cs := if cs.getLast? = some '\n' then cs.dropLast else cs
  matchesEmailPattern cs

/-- models.py `Person.__init__`: `self.name = name` with no validation,
then raise ValueError when `age < 0`, then raise ValueError when the email
fails the pattern; on an exception no instance is produced. -/
def Person.init (name : String) (age : Int) (email : String) :
    Except String Person :=
  if age < 0 then .error "Age cannot be negative"
  else if Person.validate_email email then .ok ⟨name, age, email⟩
  else .error "Invalid email format"

/-- models.py `Person.set_email`. -/
def Person.set_email (p : Person) (email : String) : Except String Person :=
  if Person.validate_email email then .ok { p with _email := email }
  else .error "Invalid email format"

structure PersonDict where
  name : String
  age : Int
  _email : String
deriving Repr, DecidableEq

/-- models.py `Person.to_dict`. -/
def Person.to_dict (p : Person) : PersonDict :=
  ⟨p.name, p.age, p._email⟩

/-- models.py `Person.from_dict`: `cls(data['name'], data['age'], data['_email'])`. -/
def Person.from_dict (d : PersonDict) : Except String Person :=
  Person.init d.name d.age d._email

structure Student extends Person where
  student_id : String
  registered_courses : List String
deriving Repr, DecidableEq

structure Instructor extends Person where
  instructor_id : String
  assigned_courses : List String
deriving Repr, DecidableEq

structure Course where
  course_id : String
  course_name : String
  instructor : Option String
  enrolled_students : List String
deriving Repr, DecidableEq

/-- models.py `Student.__init__`: Person validation, then
`self.student_id = student_id; self.registered_courses = []`. -/
def Student.init (name : String) (age : Int) (email : String)
    (student_id : String) : Except String Student :=
  (Person.init name age email).map fun p => ⟨p, student_id, []⟩

/-- models.py `Instructor.__init__`. -/
def Instructor.init (name : String) (age : Int) (email : String)
    (instructor_id : String) : Except String Instructor :=
  (Person.init name age email).map fun p => ⟨p, instructor_id, []⟩

/-- models.py `Student.register_course`: when the course is not yet in
`registered_courses`, append it and call `course.add_student(self)`, whose
inner `student.register_course(self)` call is skipped because the course is
already in the (just-updated) list. -/
def Student.register_course (s : Student) (c : Course) : Student × Course :=
  if c.course_id ∈ s.registered_courses then (s, c)
  else
    let s' := { s with registered_courses := s.registered_courses ++ [c.course_id] }
    let c' := if s.student_id ∈ c.enrolled_students then c
      else { c with enrolled_students := c.enrolled_students ++ [s.student_id] }
    (s', c')

/-- models.py `Student.unregister_course`: when registered, remove the
course from `registered_courses` and then run
`course.enrolled_students.remove(self)`, which raises ValueError when the
student is absent from `enrolled_students` (leaving, in Python, the
partially-mutated student behind while the exception propagates). -/
def Student.unregister_course (s : Student) (c : Course) :
    Except String (Student × Course) :=
  if c.course_id ∈ s.registered_courses then
    if s.student_id ∈ c.enrolled_students then
      .ok ({ s with registered_courses := s.registered_courses.erase c.course_id },
           { c with enrolled_students := c.enrolled_students.erase s.student_id })
    else .error "ValueError: list.remove(x): x not in list"
  else .ok (s, c)

/-- models.py `Course.add_student`: when the student is not enrolled,
append them; then, when the course is not in `student.registered_courses`,
`student.register_course(self)` appends it (its own recursive
`course.add_student` call is a no-op because the student is now enrolled). -/
def Course.add_student (c : Course) (s : Student) : Course × Student :=
  if s.student_id ∈ c.enrolled_students then (c, s)
  else
    let c' := { c with enrolled_students := c.enrolled_students ++ [s.student_id] }
    if c.course_id ∈ s.registered_courses then (c', s)
    else (c', { s with registered_courses := s.registered_courses ++ [c.course_id] })

/-- models.py `Course.set_instructor`: `self.instructor = instructor` is
executed first; with `instructor = None` the following
`instructor.assigned_courses` access raises AttributeError (a partial
mutation: the course's field is already cleared).  With a real instructor,
the course is appended to `assigned_courses` when absent (the recursive
`course.set_instructor(self)` inside `assign_course` re-assigns the same
field and stops).  The old instructor, if any, is never touched. -/
def Course.set_instructor (c : Course) (io : Option Instructor) :
    Course × Except String Instructor :=
  let c' := { c with instructor := io.map fun i => i.instructor_id }
  match io with
  | none => (c', .error "AttributeError: NoneType object has no attribute assigned_courses")
  | some i =>
    if c.course_id ∈ i.assigned_courses then (c', .ok i)
    else (c', .ok { i with assigned_courses := i.assigned_courses ++ [c.course_id] })

/-- models.py `Instructor.assign_course`: when the course is absent, append
it and run `course.set_instructor(self)`, which sets the course's
`instructor` field and stops. -/
def Instructor.assign_course (i : Instructor) (c : Course) :
    Instructor × Course :=
  if c.course_id ∈ i.assigned_courses then (i, c)
  else
    ({ i with assigned_courses := i.assigned_courses ++ [c.course_id] },
     { c with instructor := some i.instructor_id })

/-- models.py `Instructor.unassign_course`: when assigned, remove the
course from the list and set `course.instructor = None`. -/
def Instructor.unassign_course (i : Instructor) (c : Course) :
    Instructor × Course :=
  if c.course_id ∈ i.assigned_courses then
    ({ i with assigned_courses := i.assigned_courses.erase c.course_id },
     { c with instructor := none })
  else (i, c)

structure StudentDict where
  name : String
  age : Int
  _email : String
  student_id : String
  registered_courses : List String
deriving Repr, DecidableEq

structure InstructorDict where
  name : String
  age : Int
  _email : String
  instructor_id : String
  assigned_courses : List String
deriving Repr, DecidableEq

structure CourseDict where
  course_id : String
  course_name : String
  instructor_id : Option String
  enrolled_students : List String
deriving Repr, DecidableEq

/-- models.py `Student.to_dict`: person fields plus `student_id` and the
`course_id`s of `registered_courses`. -/
def Student.to_dict (s : Student) : StudentDict :=
  ⟨s.name, s.age, s._email, s.student_id, s.registered_courses⟩

/-- models.py `Student.from_dict`: rebuilds only the scalar fields; the
`registered_courses` entry of the dictionary is ignored and the fresh
student starts with an empty registration list. -/
def Student.from_dict (d : StudentDict) : Except String Student :=
  Student.init d.name d.age d._email d.student_id

/-- models.py `Instructor.to_dict`. -/
def Instructor.to_dict (i : Instructor) : InstructorDict :=
  ⟨i.name, i.age, i._email, i.instructor_id, i.assigned_courses⟩

/-- models.py `Instructor.from_dict`. -/
def Instructor.from_dict (d : InstructorDict) : Except String Instructor :=
  Instructor.init d.name d.age d._email d.instructor_id

/-- models.py `Course.to_dict`: `instructor_id` is
`self.instructor.instructor_id if self.instructor else None` (here the
field already holds the id), plus the enrolled students' ids. -/
def Course.to_dict (c : Course) : CourseDict :=
  ⟨c.course_id, c.course_name, c.instructor, c.enrolled_students⟩

/-- models.py `Course.from_dict`: only `course_id` and `course_name` are
read; the instructor and enrollment entries are ignored. -/
def Course.from_dict (d : CourseDict) : Course :=
  ⟨d.course_id, d.course_name, none, []⟩

example : Person.validate_email "a@b.com" = true := by decide
example : Person.validate_email "ab.com" = false := by decide
example : Person.validate_email "a@bcom" = false := by decide
example : Person.validate_email "a @b.com" = false := by decide
example : Person.validate_email "a@b.c\n" = true := by decide

/-! ### Association-list model of Python dicts (insertion-ordered, unique keys) -/

/-- Python dict lookup `d.get(k)`. -/
def dictGet {α : Type} (d : List (String × α)) (k : String) : Option α :=
  match d with
  | [] => none
  | (k', v) :: rest => if k' = k then some v else dictGet rest k

/-- Python dict assignment `d[k] = v`: replace the entry when the key is
present, otherwise append. -/
def dictInsert {α : Type} (d : List (String × α)) (k : String) (v : α) :
    List (String × α) :=
  match d with
  | [] => [(k, v)]
  | (k', v') :: rest =>
    if k' = k then (k, v) :: rest else (k', v') :: dictInsert rest k v

/-- Python dict `d.pop(k, None)`. -/
def dictPop {α : Type} (d : List (String × α)) (k : String) :
    List (String × α) :=
  d.filter fun kv => decide (kv.1 ≠ k)

/-! ### data_manager.py: SQLite rows and DataManager state -/

structure SRow where
  student_id : String
  name : String
  age : Int
  email : String
deriving Repr, DecidableEq

structure IRow where
  instructor_id : String
  name : String
  age : Int
  email : String
deriving Repr, DecidableEq

structure CRow where
  course_id : String
  course_name : String
  instructor_id : Option String
deriving Repr, DecidableEq

/-- The state of a `DataManager`: the four SQLite tables created by
`create_tables` and the three in-memory mirror dictionaries. -/
structure DMState where
  studentsTbl : List SRow
  instructorsTbl : List IRow
  coursesTbl : List CRow
  registrationsTbl : List (String × String)
  students : List (String × Student)
  instructors : List (String × Instructor)
  courses : List (String × Course)
deriving Repr, DecidableEq

/-- A freshly-constructed `DataManager` on an empty database file. -/
def emptyDM : DMState := ⟨[], [], [], [], [], [], []⟩

/-- data_manager.py `DataManager.add_student`: INSERT the row; on a
`sqlite3.Error` (here: students.student_id PRIMARY KEY violation) the
except branch prints the message and the mirror is left untouched;
otherwise the mirror entry is set after the commit.  The returned option
is the printed error message, `none` on success. -/
def DataManager.add_student (dm : DMState) (s : Student) :
    DMState × Option String :=
  if s.student_id ∈ dm.studentsTbl.map SRow.student_id then
    (dm, some "An error occurred while adding student: UNIQUE constraint failed: students.student_id")
  else
    ({ dm with
        studentsTbl := dm.studentsTbl ++ [⟨s.student_id, s.name, s.age, s._email⟩],
        students := dictInsert dm.students s.student_id s }, none)

/-- data_manager.py `DataManager.add_instructor`. -/
def DataManager.add_instructor (dm : DMState) (i : Instructor) :
    DMState × Option String :=
  if i.instructor_id ∈ dm.instructorsTbl.map IRow.instructor_id then
    (dm, some "An error occurred while adding instructor: UNIQUE constraint failed: instructors.instructor_id")
  else
    ({ dm with
        instructorsTbl := dm.instructorsTbl ++ [⟨i.instructor_id, i.name, i.age, i._email⟩],
        instructors := dictInsert dm.instructors i.instructor_id i }, none)

/-- data_manager.py `DataManager.add_course`: the INSERT can fail on the
courses.course_id PRIMARY KEY or on the FOREIGN KEY to instructors
(PRAGMA foreign_keys = ON); either error is caught and printed, and the
mirror is left untouched. -/
def DataManager.add_course (dm : DMState) (c : Course) :
    DMState × Option String :=
  if c.course_id ∈ dm.coursesTbl.map CRow.course_id then
    (dm, some "An error occurred while adding course: UNIQUE constraint failed: courses.course_id")
  else
    match c.instructor with
    | some iid =>
      if iid ∈ dm.instructorsTbl.map IRow.instructor_id then
        ({ dm with
            coursesTbl := dm.coursesTbl ++ [⟨c.course_id, c.course_name, some iid⟩],
            courses := dictInsert dm.courses c.course_id c }, none)
      else (dm, some "An error occurred while adding course: FOREIGN KEY constraint failed")
    | none =>
      ({ dm with
          coursesTbl := dm.coursesTbl ++ [⟨c.course_id, c.course_name, none⟩],
          courses := dictInsert dm.courses c.course_id c }, none)

/-- data_manager.py `DataManager.delete_course`: DELETE the row (the
registrations table's ON DELETE CASCADE removes the course's registration
rows) and pop the mirror entry.  Resident students' `registered_courses`
lists are not touched. -/
def DataManager.delete_course (dm : DMState) (cid : String) : DMState :=
  { dm with
      coursesTbl := dm.coursesTbl.filter fun r => decide (r.course_id ≠ cid),
      registrationsTbl := dm.registrationsTbl.filter fun p => decide (p.2 ≠ cid),
      courses := dictPop dm.courses cid }

/-- data_manager.py `DataManager.delete_instructor`: DELETE the instructor
row (the courses table's ON DELETE SET NULL nulls the column, and the
explicit UPDATE sets it to NULL again), pop the mirror entry, and walk the
in-memory courses clearing `instructor` where it referenced the deleted
instructor. -/
def DataManager.delete_instructor (dm : DMState) (iid : String) : DMState :=
  { dm with
      instructorsTbl := dm.instructorsTbl.filter fun r => decide (r.instructor_id ≠ iid),
      coursesTbl := dm.coursesTbl.map fun r =>
        if r.instructor_id = some iid then { r with instructor_id := none } else r,
      instructors := dictPop dm.instructors iid,
      courses := dm.courses.map fun kv =>
        (kv.1, if kv.2.instructor = some iid then { kv.2 with instructor := none } else kv.2) }

/-- The JSON document written by `save_data` and read by `load_data`. -/
structure SaveDoc where
  students : List StudentDict
  instructors : List InstructorDict
  courses : List CourseDict
deriving Repr, DecidableEq

/-- data_manager.py `DataManager.save_data`: serialize the three mirror
dictionaries' values in order. -/
def DataManager.save_data (dm : DMState) : SaveDoc :=
  ⟨dm.students.map fun kv => Student.to_dict kv.2,
   dm.instructors.map fun kv => Instructor.to_dict kv.2,
   dm.courses.map fun kv => Course.to_dict kv.2⟩

/-- data_manager.py `load_data`, student loop (lines 252-257): for each
entry, `Student.from_dict` (whose constructor can raise on invalid fields),
then the mirror assignment, then `add_student` (whose sqlite errors are
caught). -/
def DataManager.loadStudents (dm : DMState) :
    List StudentDict → Except String DMState
  | [] => .ok dm
  | sd :: rest =>
    match Student.from_dict sd with
    | .error e => .error e
    | .ok st =>
      let dm1 := { dm with students := dictInsert dm.students st.student_id st }
      DataManager.loadStudents (DataManager.add_student dm1 st).1 rest

/-- data_manager.py `load_data`, instructor loop (lines 260-265). -/
def DataManager.loadInstructors (dm : DMState) :
    List InstructorDict → Except String DMState
  | [] => .ok dm
  | idd :: rest =>
    match Instructor.from_dict idd with
    | .error e => .error e
    | .ok ins =>
      let dm1 := { dm with instructors := dictInsert dm.instructors ins.instructor_id ins }
      DataManager.loadInstructors (DataManager.add_instructor dm1 ins).1 rest

/-- Sequencing of statements that can raise: evaluate the first; an
exception propagates, otherwise continue. -/
def exceptBind {α β : Type} (x : Except String α) (f : α → Except String β) :
    Except String β :=
  match x with
  | .error e => .error e
  | .ok a => f a

theorem exceptBind_error {α β : Type} (e : String) (f : α → Except String β) :
    exceptBind (Except.error e) f = Except.error e := rfl

theorem exceptBind_ok {α β : Type} (a : α) (f : α → Except String β) :
    exceptBind (Except.ok a) f = f a := rfl

/-- data_manager.py `load_data`, line 270-271:
`instructor = self.instructors.get(instructor_id) if instructor_id else None`
(an empty-string id is falsy in Python).  The mirror entry's key is
carried alongside the object so that the in-place mutation performed by
`set_instructor` can be written back to the entry it was looked up at. -/
def DataManager.instructorLookup (dm : DMState) (oid : Option String) :
    Option (String × Instructor) :=
  match oid with
  | none => none
  | some iid =>
    if iid = "" then none
    else (dictGet dm.instructors iid).map fun i => (iid, i)

/-- data_manager.py `load_data`, course-loop body after the lookup (lines
272-276): `course = Course.from_dict(c_data)`, then
`course.set_instructor(instructor)` — which raises AttributeError when the
lookup produced `None` — then the two mirror assignments and `add_course`
(whose sqlite errors are caught). -/
def DataManager.loadCourseAux (dm : DMState) (cd : CourseDict) :
    Option (String × Instructor) → Except String DMState
  | entry =>
    let p := Course.set_instructor (Course.from_dict cd)
      (entry.map fun ki => ki.2)
    match p.2 with
    | .error e => .error e
    | .ok i' =>
      let dm1 := match entry with
        | some ki => { dm with instructors := dictInsert dm.instructors ki.1 i' }
        | none => dm
      let dm2 := { dm1 with courses := dictInsert dm1.courses p.1.course_id p.1 }
      .ok (DataManager.add_course dm2 p.1).1

/-- data_manager.py `load_data`, one full course-loop iteration. -/
def DataManager.loadCourseStep (dm : DMState) (cd : CourseDict) :
    Except String DMState :=
  DataManager.loadCourseAux dm cd
    (DataManager.instructorLookup dm cd.instructor_id)

/-- data_manager.py `load_data`, course loop (lines 268-276). -/
def DataManager.loadCourses (dm : DMState) :
    List CourseDict → Except String DMState
  | [] => .ok dm
  | cd :: rest =>
    exceptBind (DataManager.loadCourseStep dm cd) fun dm' =>
      DataManager.loadCourses dm' rest

/-- data_manager.py `load_data`, enrollment loop body (lines 284-288): for
the first enrolled-student id resident in the mirror,
`course.add_student(student)` runs and then
`self.register_student_in_course(student_id, course_id)` raises
AttributeError — `DataManager` defines no such method — discarding, in
this functional model, the mutation `add_student` made just before the
exception propagates out of `load_data`. -/
def DataManager.enrollLoop (dm : DMState) : List String → Except String Unit
  | [] => .ok ()
  | sid :: rest =>
    match dictGet dm.students sid with
    | none => DataManager.enrollLoop dm rest
    | some _ => .error "AttributeError: DataManager object has no attribute register_student_in_course"

/-- data_manager.py `load_data`, enrollment loop (lines 279-288). -/
def DataManager.enrollStudents (dm : DMState) :
    List CourseDict → Except String DMState
  | [] => .ok dm
  | cd :: rest =>
    match dictGet dm.courses cd.course_id with
    | none => DataManager.enrollStudents dm rest
    | some _ =>
      match DataManager.enrollLoop dm cd.enrolled_students with
      | .error e => .error e
      | .ok () => DataManager.enrollStudents dm rest

/-- data_manager.py `DataManager.load_data`: reset each mirror dictionary,
run the three loading loops and then the enrollment loop; only the file
read is guarded by try/except, so any exception raised inside the loops
propagates to the caller. -/
def DataManager.load_data (dm : DMState) (doc : SaveDoc) :
    Except String DMState :=
  exceptBind (DataManager.loadStudents { dm with students := [] } doc.students)
    fun dm1 =>
  exceptBind (DataManager.loadInstructors { dm1 with instructors := [] }
      doc.instructors) fun dm2 =>
  exceptBind (DataManager.loadCourses { dm2 with courses := [] } doc.courses)
    fun dm3 =>
  DataManager.enrollStudents dm3 doc.courses

/-! ### models_PyQt.py: the second model variant -/

namespace ModelsPyQt

structure student where
  name : String
  age : Int
  _email : String
  student_id : String
  registered_courses : List String
deriving Repr, DecidableEq

structure course where
  course_id : String
  course_name : String
  instructor_id : Option String
  enrolled_students : List student
deriving Repr, DecidableEq

/-- A runtime value as seen by Python's `isinstance`: either an instance
or a class object. -/
inductive PyVal where
  | obj : student → PyVal
  | cls : String → PyVal
deriving Repr, DecidableEq

/-- Python `isinstance(v, t)`: when `t` is not a class (here: it is an
instance), raise `TypeError: isinstance() arg 2 must be a type`; otherwise
test the instance's class (every instance in this universe is a
`student`). -/
def pyIsinstance (v : PyVal) (t : PyVal) : Except String Bool :=
  match t with
  | PyVal.cls c =>
    match v with
    | PyVal.obj _ => .ok (c = "student")
    | PyVal.cls _ => .ok false
  | PyVal.obj _ => .error "TypeError: isinstance() arg 2 must be a type"

/-- models_PyQt.py `course.add_student` (lines 207-218): the body runs
`if not isinstance(student, student)`, but inside the method the name
`student` resolves to the parameter, not the class, so both arguments of
`isinstance` are the instance itself; on TypeError nothing is appended. -/
def course.add_student (c : course) (s : student) :
    course × Except String Unit :=
  match pyIsinstance (PyVal.obj s) (PyVal.obj s) with
  | .error e => (c, .error e)
  | .ok b =>
    if ! b then (c, .error "Student must be a valid student object.")
    else ({ c with enrolled_students := c.enrolled_students ++ [s] }, .ok ())

end ModelsPyQt

/-! ### Lemmas about the dict model -/

theorem dictGet_dictInsert {α : Type} (d : List (String × α)) (k k' : String)
    (v : α) :
    dictGet (dictInsert d k v) k' = if k = k' then some v else dictGet d k' := by
  induction d with
  | nil => simp [dictInsert, dictGet]
  | cons kv rest ih =>
    obtain ⟨k₀, v₀⟩ := kv
    by_cases h : k₀ = k
    · subst h
      simp only [dictInsert, if_pos rfl, dictGet]
      by_cases h' : k₀ = k'
      · subst h'; simp [dictGet]
      · simp [dictGet, h']
    · simp only [dictInsert, if_neg h, dictGet]
      by_cases h' : k₀ = k'
      · subst h'
        have : ¬ (k = k₀) := fun hh => h hh.symm
        simp [dictGet, this]
      · simp [dictGet, h', ih]

theorem dictGet_dictPop_self {α : Type} (d : List (String × α)) (k : String) :
    dictGet (dictPop d k) k = none := by
  induction d with
  | nil => rfl
  | cons kv rest ih =>
    obtain ⟨k₀, v₀⟩ := kv
    rw [dictPop, List.filter_cons]
    rw [dictPop] at ih
    by_cases h : k₀ = k
    · simpa [h] using ih
    · have hp : (decide ((k₀, v₀).1 ≠ k)) = true := by simpa using h
      rw [if_pos hp]
      simpa [dictGet, h] using ih

theorem dictGet_map_values {α : Type} (f : α → α) (d : List (String × α))
    (k : String) :
    dictGet (d.map fun kv => (kv.1, f kv.2)) k = (dictGet d k).map f := by
  induction d with
  | nil => rfl
  | cons kv rest ih =>
    obtain ⟨k₀, v₀⟩ := kv
    by_cases h : k₀ = k
    · subst h; simp [dictGet]
    · simp [dictGet, h, ih]

/-! ### Helper lemmas and invariant predicates -/

theorem erase_append_singleton (l : List String) (a : String) (h : a ∉ l) :
    (l ++ [a]).erase a = l := by
  induction l with
  | nil => simp
  | cons b t ih =>
    have hb : b ≠ a := fun hba => h (hba ▸ List.mem_cons_self b t)
    have ht : a ∉ t := fun hat => h (List.mem_cons_of_mem b hat)
    simp only [List.cons_append, List.erase_cons]
    rw [if_neg (by simpa using hb)]
    rw [ih ht]

theorem self_not_mem_erase (a : String) (l : List String) (h : l.Nodup) :
    a ∉ l.erase a := by
  induction l with
  | nil => simp
  | cons b t ih =>
    rcases List.nodup_cons.mp h with ⟨hbt, htn⟩
    by_cases hba : b = a
    · subst hba
      simpa [List.erase_cons] using hbt
    · intro hmem
      rw [List.erase_cons, if_neg (by simpa using hba)] at hmem
      rcases List.mem_cons.mp hmem with hab | hmem'
      · exact hba hab.symm
      · exact ih htn hmem'

/-- Referential symmetry between one student and one course (spec section
3, first invariant), on the id-based object model. -/
def studentCourseSym (s : Student) (c : Course) : Prop :=
  c.course_id ∈ s.registered_courses ↔ s.student_id ∈ c.enrolled_students

/-- Referential symmetry between one instructor and one course (spec
section 3, second invariant). -/
def instructorCourseSym (i : Instructor) (c : Course) : Prop :=
  c.course_id ∈ i.assigned_courses ↔ c.instructor = some i.instructor_id

instance (s : Student) (c : Course) : Decidable (studentCourseSym s c) := by
  unfold studentCourseSym; infer_instance

instance (i : Instructor) (c : Course) : Decidable (instructorCourseSym i c) := by
  unfold instructorCourseSym; infer_instance

/-! ### Claim C5 -/

/-- Claim C5, counterexample: models.py `Person.__init__` never validates
the name, so constructing a Person with an empty name (valid age and
email) succeeds and produces an instance, contradicting the claim that an
empty name raises a validation error. -/
theorem C5_counterexample :
    Person.init "" 20 "a@b.com" = Except.ok ⟨"", 20, "a@b.com"⟩ := by rfl

/-- Claim C5 (amended): construction raises ValueError when the (integer)
age is negative — checked first — or when the email fails the pattern, and
otherwise succeeds; the name is never validated, so empty names are
accepted; `set_email` with an invalid email raises ValueError, leaving the
stored email unchanged. -/
theorem C5_amended :
    (∀ name age email, age < 0 →
        Person.init name age email = Except.error "Age cannot be negative") ∧
    (∀ name age email, 0 ≤ age → Person.validate_email email = false →
        Person.init name age email = Except.error "Invalid email format") ∧
    (∀ name age email, 0 ≤ age → Person.validate_email email = true →
        Person.init name age email = Except.ok ⟨name, age, email⟩) ∧
    (∀ p email, Person.validate_email email = false →
        Person.set_email p email = Except.error "Invalid email format") := by
  refine ⟨?_, ?_, ?_, ?_⟩
  · intro name age email h
    simp [Person.init, h]
  · intro name age email h hv
    rw [Person.init, if_neg (by omega), hv]
    rfl
  · intro name age email h hv
    rw [Person.init, if_neg (by omega), hv]
    rfl
  · intro p email hv
    rw [Person.set_email, hv]
    rfl

/-- Claim C5, witness for the amended theorem at concrete inputs. -/
theorem C5_witness :
    Person.init "Ann" (-1) "a@b.com" = Except.error "Age cannot be negative" ∧
    Person.init "Ann" 20 "not-an-email" = Except.error "Invalid email format" ∧
    Person.init "Ann" 20 "a@b.com" = Except.ok ⟨"Ann", 20, "a@b.com"⟩ ∧
    Person.set_email ⟨"Ann", 20, "a@b.com"⟩ "bad" = Except.error "Invalid email format" :=
  ⟨C5_amended.1 "Ann" (-1) "a@b.com" (by decide),
   C5_amended.2.1 "Ann" 20 "not-an-email" (by decide) (by decide),
   C5_amended.2.2.1 "Ann" 20 "a@b.com" (by decide) (by decide),
   C5_amended.2.2.2 ⟨"Ann", 20, "a@b.com"⟩ "bad" (by decide)⟩

instance {ε α : Type} [DecidableEq ε] [DecidableEq α] :
    DecidableEq (Except ε α) := fun x y =>
  match x, y with
  | .ok a, .ok b =>
    if h : a = b then isTrue (by rw [h])
    else isFalse (fun hh => h (Except.ok.inj hh))
  | .error e, .error f =>
    if h : e = f then isTrue (by rw [h])
    else isFalse (fun hh => h (Except.error.inj hh))
  | .ok _, .error _ => isFalse fun hh => Except.noConfusion hh
  | .error _, .ok _ => isFalse fun hh => Except.noConfusion hh

/-! ### Claim C7 -/

/-- Claim C7, counterexample: for a student already registered (with the
symmetric enrollment present), `register_course` is a no-op but
`unregister_course` then removes the registration from both sides, so the
pair does not return to its pre-call state — the claimed round trip fails
for already-registered students. -/
theorem C7_counterexample :
    Student.unregister_course
        (Student.register_course ⟨⟨"Ann", 20, "a@b.com"⟩, "S1", ["C1"]⟩
          ⟨"C1", "Algebra", none, ["S1"]⟩).1
        (Student.register_course ⟨⟨"Ann", 20, "a@b.com"⟩, "S1", ["C1"]⟩
          ⟨"C1", "Algebra", none, ["S1"]⟩).2 ≠
      Except.ok (⟨⟨"Ann", 20, "a@b.com"⟩, "S1", ["C1"]⟩,
        ⟨"C1", "Algebra", none, ["S1"]⟩) := by decide

/-- Claim C7 (amended): for a student NOT already registered in the course
and not already in its enrollment list, `register_course` adds the course
to the student's list and the student to the course's list in one logical
step, and `unregister_course` then returns both objects exactly to their
pre-call state; `register_course` is a no-op when the student is already
registered. -/
theorem C7_amended :
    (∀ s c, c.course_id ∉ s.registered_courses →
      s.student_id ∉ c.enrolled_students →
      c.course_id ∈ (Student.register_course s c).1.registered_courses ∧
      s.student_id ∈ (Student.register_course s c).2.enrolled_students ∧
      Student.unregister_course (Student.register_course s c).1
        (Student.register_course s c).2 = Except.ok (s, c)) ∧
    (∀ s c, c.course_id ∈ s.registered_courses →
      Student.register_course s c = (s, c)) := by
  constructor
  · intro s c hreg henr
    have hr : Student.register_course s c =
        ({ s with registered_courses := s.registered_courses ++ [c.course_id] },
         { c with enrolled_students := c.enrolled_students ++ [s.student_id] }) := by
      simp [Student.register_course, hreg, henr]
    rw [hr]
    refine ⟨by simp, by simp, ?_⟩
    rw [Student.unregister_course]
    rw [if_pos (by simp : c.course_id ∈ s.registered_courses ++ [c.course_id])]
    rw [if_pos (by simp : s.student_id ∈ c.enrolled_students ++ [s.student_id])]
    rw [erase_append_singleton _ _ hreg, erase_append_singleton _ _ henr]
  · intro s c h
    rw [Student.register_course, if_pos h]

/-- Claim C7, witness for the amended theorem at concrete inputs. -/
theorem C7_witness :
    "C1" ∈ (Student.register_course ⟨⟨"Ann", 20, "a@b.com"⟩, "S1", []⟩
      ⟨"C1", "Algebra", none, []⟩).1.registered_courses ∧
    "S1" ∈ (Student.register_course ⟨⟨"Ann", 20, "a@b.com"⟩, "S1", []⟩
      ⟨"C1", "Algebra", none, []⟩).2.enrolled_students ∧
    Student.unregister_course
        (Student.register_course ⟨⟨"Ann", 20, "a@b.com"⟩, "S1", []⟩
          ⟨"C1", "Algebra", none, []⟩).1
        (Student.register_course ⟨⟨"Ann", 20, "a@b.com"⟩, "S1", []⟩
          ⟨"C1", "Algebra", none, []⟩).2 =
      Except.ok (⟨⟨"Ann", 20, "a@b.com"⟩, "S1", []⟩,
        ⟨"C1", "Algebra", none, []⟩) :=
  C7_amended.1 ⟨⟨"Ann", 20, "a@b.com"⟩, "S1", []⟩
    ⟨"C1", "Algebra", none, []⟩ (by decide) (by decide)

/-! ### Claim C2 -/

/-- Claim C2, counterexample: with instructor I1 assigned to course C1
(`C1 ∈ I1.assigned_courses` and `C1.instructor = I1`), calling
`C1.set_instructor(I2)` repoints the course at I2 but never removes C1
from I1's `assigned_courses`, so instructor–course referential symmetry
with the still-resident old instructor is broken after the mutation —
the old association is NOT replaced on both sides. -/
theorem C2_counterexample :
    ¬ instructorCourseSym ⟨⟨"Ina", 50, "i@x.co"⟩, "I1", ["C1"]⟩
        (Course.set_instructor ⟨"C1", "Algebra", some "I1", []⟩
          (some ⟨⟨"Joe", 40, "j@x.co"⟩, "I2", []⟩)).1 := by decide

/-- Claim C2 (amended): student–course referential symmetry between the
mutated pair is preserved by `register_course`, `add_student` and
`unregister_course` (the latter needs duplicate-free lists and succeeds
from a symmetric state), and `unassign_course` preserves
instructor–course symmetry; `set_instructor` with a new (non-None)
instructor sets the course's reference and adds the course to the new
instructor's `assigned_courses` without erroring, but it does not touch
the old instructor, whose `assigned_courses` keeps the stale edge. -/
theorem C2_amended :
    (∀ s c, studentCourseSym s c →
      studentCourseSym (Student.register_course s c).1
        (Student.register_course s c).2) ∧
    (∀ s c, studentCourseSym s c →
      studentCourseSym (Course.add_student c s).2 (Course.add_student c s).1) ∧
    (∀ s c, s.registered_courses.Nodup → c.enrolled_students.Nodup →
      studentCourseSym s c →
      ∃ s' c', Student.unregister_course s c = Except.ok (s', c') ∧
        studentCourseSym s' c') ∧
    (∀ c i, (Course.set_instructor c (some i)).1.instructor = some i.instructor_id ∧
      ∃ i', (Course.set_instructor c (some i)).2 = Except.ok i' ∧
        c.course_id ∈ i'.assigned_courses ∧
        i'.instructor_id = i.instructor_id) ∧
    (∀ i c, i.assigned_courses.Nodup → instructorCourseSym i c →
      instructorCourseSym (Instructor.unassign_course i c).1
        (Instructor.unassign_course i c).2) := by
  refine ⟨?_, ?_, ?_, ?_, ?_⟩
  · intro s c hsym
    by_cases hreg : c.course_id ∈ s.registered_courses
    · simpa [Student.register_course, hreg] using hsym
    · have henr : s.student_id ∉ c.enrolled_students := fun h =>
        hreg (hsym.mpr h)
      simp [Student.register_course, hreg, henr, studentCourseSym]
  · intro s c hsym
    by_cases henr : s.student_id ∈ c.enrolled_students
    · simpa [Course.add_student, henr] using hsym
    · have hreg : c.course_id ∉ s.registered_courses := fun h =>
        henr (hsym.mp h)
      simp [Course.add_student, hreg, henr, studentCourseSym]
  · intro s c hns hnc hsym
    by_cases hreg : c.course_id ∈ s.registered_courses
    · have henr : s.student_id ∈ c.enrolled_students := hsym.mp hreg
      refine ⟨{ s with registered_courses := s.registered_courses.erase c.course_id },
        { c with enrolled_students := c.enrolled_students.erase s.student_id }, ?_, ?_⟩
      · rw [Student.unregister_course, if_pos hreg, if_pos henr]
      · constructor
        · intro h
          exact absurd h (self_not_mem_erase _ _ hns)
        · intro h
          exact absurd h (self_not_mem_erase _ _ hnc)
    · have henr : s.student_id ∉ c.enrolled_students := fun h =>
        hreg (hsym.mpr h)
      refine ⟨s, c, ?_, hsym⟩
      rw [Student.unregister_course, if_neg hreg]
  · intro c i
    by_cases hmem : c.course_id ∈ i.assigned_courses
    · refine ⟨by simp [Course.set_instructor, hmem], i, ?_, hmem, rfl⟩
      simp [Course.set_instructor, hmem]
    · refine ⟨by simp [Course.set_instructor, hmem],
        { i with assigned_courses := i.assigned_courses ++ [c.course_id] }, ?_, by simp, rfl⟩
      simp [Course.set_instructor, hmem]
  · intro i c hnd hsym
    by_cases hmem : c.course_id ∈ i.assigned_courses
    · have hinstr : c.instructor = some i.instructor_id := hsym.mp hmem
      rw [Instructor.unassign_course, if_pos hmem]
      constructor
      · intro h
        exact absurd h (self_not_mem_erase _ _ hnd)
      · intro h
        simp at h
    · rw [Instructor.unassign_course, if_neg hmem]
      exact hsym

/-- Claim C2, witness for the amended theorem at concrete inputs. -/
theorem C2_witness :
    studentCourseSym
      (Student.register_course ⟨⟨"Bea", 21, "b@c.de"⟩, "S2", []⟩
        ⟨"C2", "Logic", none, []⟩).1
      (Student.register_course ⟨⟨"Bea", 21, "b@c.de"⟩, "S2", []⟩
        ⟨"C2", "Logic", none, []⟩).2 ∧
    (∃ s' c', Student.unregister_course ⟨⟨"Bea", 21, "b@c.de"⟩, "S2", ["C2"]⟩
        ⟨"C2", "Logic", none, ["S2"]⟩ = Except.ok (s', c') ∧
      studentCourseSym s' c') ∧
    (∃ i', (Course.set_instructor ⟨"C2", "Logic", none, []⟩
        (some ⟨⟨"Ina", 50, "i@x.co"⟩, "I1", []⟩)).2 = Except.ok i' ∧
      "C2" ∈ i'.assigned_courses ∧ i'.instructor_id = "I1") :=
  ⟨C2_amended.1 ⟨⟨"Bea", 21, "b@c.de"⟩, "S2", []⟩
      ⟨"C2", "Logic", none, []⟩ (by decide),
   C2_amended.2.2.1 ⟨⟨"Bea", 21, "b@c.de"⟩, "S2", ["C2"]⟩
      ⟨"C2", "Logic", none, ["S2"]⟩ (by decide) (by decide) (by decide),
   (C2_amended.2.2.2.1 ⟨"C2", "Logic", none, []⟩
      ⟨⟨"Ina", 50, "i@x.co"⟩, "I1", []⟩).2⟩

/-! ### Claim C10 -/

/-- Claim C10: in models_PyQt.py, `course.add_student` runs
`isinstance(student, student)` where the parameter `student` shadows the
class name, so `isinstance` receives an instance as its second argument
and raises TypeError for every student; nothing is ever appended to
`enrolled_students`, so no student can be enrolled through this method. -/
theorem C10_add_student_always_raises :
    ∀ (c : ModelsPyQt.course) (s : ModelsPyQt.student),
      ModelsPyQt.course.add_student c s =
        (c, Except.error "TypeError: isinstance() arg 2 must be a type") := by
  intro c s
  rfl

/-! ### Claim C8 -/

/-- Claim C8: for every valid field tuple (age ≥ 0, email matching the
pattern — the name is never checked), construction of a Person, Student or
Instructor succeeds, and applying `from_dict` to `to_dict` reproduces the
very same entity, so name, age, email and the id all round-trip
unchanged through serialization. -/
theorem C8_serialization_round_trip :
    ∀ name age email sid iid, 0 ≤ age → Person.validate_email email = true →
      (∃ p, Person.init name age email = Except.ok p ∧
        Person.from_dict (Person.to_dict p) = Except.ok p ∧
        p.name = name ∧ p.age = age ∧ p._email = email) ∧
      (∃ s, Student.init name age email sid = Except.ok s ∧
        Student.from_dict (Student.to_dict s) = Except.ok s ∧
        s.name = name ∧ s.age = age ∧ s._email = email ∧ s.student_id = sid) ∧
      (∃ i, Instructor.init name age email iid = Except.ok i ∧
        Instructor.from_dict (Instructor.to_dict i) = Except.ok i ∧
        i.name = name ∧ i.age = age ∧ i._email = email ∧
        i.instructor_id = iid) := by
  intro name age email sid iid hage hmail
  have hinit : Person.init name age email = Except.ok ⟨name, age, email⟩ := by
    rw [Person.init, if_neg (by omega), hmail]
    rfl
  refine ⟨⟨⟨name, age, email⟩, hinit, ?_, rfl, rfl, rfl⟩,
    ⟨⟨⟨name, age, email⟩, sid, []⟩, ?_, ?_, rfl, rfl, rfl, rfl⟩,
    ⟨⟨⟨name, age, email⟩, iid, []⟩, ?_, ?_, rfl, rfl, rfl, rfl⟩⟩
  · rw [Person.from_dict, Person.to_dict]
    exact hinit
  · rw [Student.init, hinit]
    rfl
  · rw [Student.from_dict, Student.to_dict, Student.init, hinit]
    rfl
  · rw [Instructor.init, hinit]
    rfl
  · rw [Instructor.from_dict, Instructor.to_dict, Instructor.init, hinit]
    rfl

/-- Claim C8, witness at a concrete valid field tuple. -/
theorem C8_witness :
    ∃ s, Student.init "Ann" 20 "a@b.com" "S1" = Except.ok s ∧
      Student.from_dict (Student.to_dict s) = Except.ok s ∧
      s.name = "Ann" ∧ s.age = 20 ∧ s._email = "a@b.com" ∧
      s.student_id = "S1" :=
  (C8_serialization_round_trip "Ann" 20 "a@b.com" "S1" "I1"
    (by decide) (by decide)).2.1

/-! ### Claim C6 -/

/-- Claim C6: when an add hits a storage failure — in particular a
duplicate primary key — the sqlite error is caught and printed (the
returned message; no uncaught exception), and the whole state, including
the previously stored rows and the in-memory mirror, is left unchanged,
so the stored entity is unmodified and the mirror's size is unchanged. -/
theorem C6_add_duplicate_rejected :
    ∀ dm (s : Student) (i : Instructor) (c : Course),
      (s.student_id ∈ dm.studentsTbl.map SRow.student_id →
        DataManager.add_student dm s =
          (dm, some "An error occurred while adding student: UNIQUE constraint failed: students.student_id")) ∧
      (i.instructor_id ∈ dm.instructorsTbl.map IRow.instructor_id →
        DataManager.add_instructor dm i =
          (dm, some "An error occurred while adding instructor: UNIQUE constraint failed: instructors.instructor_id")) ∧
      (c.course_id ∈ dm.coursesTbl.map CRow.course_id →
        DataManager.add_course dm c =
          (dm, some "An error occurred while adding course: UNIQUE constraint failed: courses.course_id")) := by
  intro dm s i c
  refine ⟨?_, ?_, ?_⟩
  · intro h
    rw [DataManager.add_student, if_pos h]
  · intro h
    rw [DataManager.add_instructor, if_pos h]
  · intro h
    rw [DataManager.add_course, if_pos h]

/-- Claim C6, witness: adding a second course with the id of an existing
row is rejected with the first course's row and the mirror unchanged. -/
theorem C6_witness :
    DataManager.add_course
        ⟨[], [], [⟨"C1", "Algebra", none⟩], [], [], [],
          [("C1", ⟨"C1", "Algebra", none, []⟩)]⟩
        ⟨"C1", "Geometry", none, []⟩ =
      (⟨[], [], [⟨"C1", "Algebra", none⟩], [], [], [],
        [("C1", ⟨"C1", "Algebra", none, []⟩)]⟩,
       some "An error occurred while adding course: UNIQUE constraint failed: courses.course_id") :=
  (C6_add_duplicate_rejected
    ⟨[], [], [⟨"C1", "Algebra", none⟩], [], [], [],
      [("C1", ⟨"C1", "Algebra", none, []⟩)]⟩
    ⟨⟨"Ann", 20, "a@b.com"⟩, "S1", []⟩
    ⟨⟨"Ina", 50, "i@x.co"⟩, "I1", []⟩
    ⟨"C1", "Geometry", none, []⟩).2.2 (by decide)

/-! ### Claim C4 -/

/-- Claim C4: when instructor I is assigned to resident course C (the
mirror object's `instructor` field and the course row's `instructor_id`
column both reference I), `delete_instructor` clears the reference to
`None`/NULL on the in-memory course and in the courses table, and the
course itself survives in both the mirror and storage. -/
theorem C4_delete_instructor_nulls_courses :
    ∀ dm iid cid (C : Course) (r : CRow),
      dictGet dm.courses cid = some C → C.instructor = some iid →
      r ∈ dm.coursesTbl → r.course_id = cid → r.instructor_id = some iid →
      dictGet (DataManager.delete_instructor dm iid).courses cid =
        some { C with instructor := none } ∧
      { r with instructor_id := none } ∈
        (DataManager.delete_instructor dm iid).coursesTbl := by
  intro dm iid cid C r hget hCi hrow hrc hri
  constructor
  · rw [DataManager.delete_instructor]
    simp only
    rw [dictGet_map_values
      (fun v => if v.instructor = some iid then { v with instructor := none } else v)
      dm.courses cid, hget]
    simp [hCi]
  · rw [DataManager.delete_instructor]
    simp only
    have : { r with instructor_id := none } =
        (fun rr => if rr.instructor_id = some iid then { rr with instructor_id := none } else rr) r := by
      simp [hri]
    rw [this]
    exact List.mem_map_of_mem _ hrow

/-- Claim C4, witness at a concrete state. -/
theorem C4_witness :
    dictGet (DataManager.delete_instructor
        ⟨[], [⟨"I1", "Ina", 50, "i@x.co"⟩], [⟨"C1", "Algebra", some "I1"⟩], [],
          [], [("I1", ⟨⟨"Ina", 50, "i@x.co"⟩, "I1", ["C1"]⟩)],
          [("C1", ⟨"C1", "Algebra", some "I1", []⟩)]⟩ "I1").courses "C1" =
      some ⟨"C1", "Algebra", none, []⟩ ∧
    (⟨"C1", "Algebra", none⟩ : CRow) ∈
      (DataManager.delete_instructor
        ⟨[], [⟨"I1", "Ina", 50, "i@x.co"⟩], [⟨"C1", "Algebra", some "I1"⟩], [],
          [], [("I1", ⟨⟨"Ina", 50, "i@x.co"⟩, "I1", ["C1"]⟩)],
          [("C1", ⟨"C1", "Algebra", some "I1", []⟩)]⟩ "I1").coursesTbl :=
  C4_delete_instructor_nulls_courses
    ⟨[], [⟨"I1", "Ina", 50, "i@x.co"⟩], [⟨"C1", "Algebra", some "I1"⟩], [],
      [], [("I1", ⟨⟨"Ina", 50, "i@x.co"⟩, "I1", ["C1"]⟩)],
      [("C1", ⟨"C1", "Algebra", some "I1", []⟩)]⟩
    "I1" "C1" ⟨"C1", "Algebra", some "I1", []⟩ ⟨"C1", "Algebra", some "I1"⟩
    (by decide) (by decide) (by decide) (by decide) (by decide)

/-! ### Claim C3 -/

/-- Claim C3, counterexample: with student S1 registered in resident
course C1 on both sides and in the registrations table,
`delete_course("C1")` pops the course from the mirror and the rows from
storage, but S1's in-memory `registered_courses` still contains "C1" —
the claimed removal from the student's list never happens. -/
theorem C3_counterexample :
    dictGet (DataManager.delete_course
        ⟨[⟨"S1", "Ann", 20, "a@b.com"⟩], [], [⟨"C1", "Algebra", none⟩],
          [("S1", "C1")],
          [("S1", ⟨⟨"Ann", 20, "a@b.com"⟩, "S1", ["C1"]⟩)], [],
          [("C1", ⟨"C1", "Algebra", none, ["S1"]⟩)]⟩ "C1").students "S1" =
      some ⟨⟨"Ann", 20, "a@b.com"⟩, "S1", ["C1"]⟩ ∧
    dictGet (DataManager.delete_course
        ⟨[⟨"S1", "Ann", 20, "a@b.com"⟩], [], [⟨"C1", "Algebra", none⟩],
          [("S1", "C1")],
          [("S1", ⟨⟨"Ann", 20, "a@b.com"⟩, "S1", ["C1"]⟩)], [],
          [("C1", ⟨"C1", "Algebra", none, ["S1"]⟩)]⟩ "C1").courses "C1" =
      none := by decide

/-- Claim C3 (amended): `delete_course` removes the course from the
courses mirror, and its row and all its registration rows from storage,
but leaves the students mirror — and so every resident student's
`registered_courses` list — completely untouched. -/
theorem C3_amended :
    ∀ dm cid,
      dictGet (DataManager.delete_course dm cid).courses cid = none ∧
      (∀ r ∈ (DataManager.delete_course dm cid).coursesTbl,
        r.course_id ≠ cid) ∧
      (∀ p ∈ (DataManager.delete_course dm cid).registrationsTbl,
        p.2 ≠ cid) ∧
      (DataManager.delete_course dm cid).students = dm.students := by
  intro dm cid
  refine ⟨?_, ?_, ?_, rfl⟩
  · rw [DataManager.delete_course]
    exact dictGet_dictPop_self dm.courses cid
  · intro r hr
    rw [DataManager.delete_course] at hr
    simp only [List.mem_filter, decide_eq_true_eq] at hr
    exact hr.2
  · intro p hp
    rw [DataManager.delete_course] at hp
    simp only [List.mem_filter, decide_eq_true_eq] at hp
    exact hp.2

/-- Claim C3, witness for the amended theorem at a concrete state. -/
theorem C3_witness :
    dictGet (DataManager.delete_course
        ⟨[⟨"S2", "Bea", 21, "b@c.de"⟩], [], [⟨"C2", "Logic", none⟩],
          [("S2", "C2")],
          [("S2", ⟨⟨"Bea", 21, "b@c.de"⟩, "S2", ["C2"]⟩)], [],
          [("C2", ⟨"C2", "Logic", none, ["S2"]⟩)]⟩ "C2").courses "C2" = none ∧
    (∀ r ∈ (DataManager.delete_course
        ⟨[⟨"S2", "Bea", 21, "b@c.de"⟩], [], [⟨"C2", "Logic", none⟩],
          [("S2", "C2")],
          [("S2", ⟨⟨"Bea", 21, "b@c.de"⟩, "S2", ["C2"]⟩)], [],
          [("C2", ⟨"C2", "Logic", none, ["S2"]⟩)]⟩ "C2").coursesTbl,
      r.course_id ≠ "C2") ∧
    (∀ p ∈ (DataManager.delete_course
        ⟨[⟨"S2", "Bea", 21, "b@c.de"⟩], [], [⟨"C2", "Logic", none⟩],
          [("S2", "C2")],
          [("S2", ⟨⟨"Bea", 21, "b@c.de"⟩, "S2", ["C2"]⟩)], [],
          [("C2", ⟨"C2", "Logic", none, ["S2"]⟩)]⟩ "C2").registrationsTbl,
      p.2 ≠ "C2") ∧
    (DataManager.delete_course
        ⟨[⟨"S2", "Bea", 21, "b@c.de"⟩], [], [⟨"C2", "Logic", none⟩],
          [("S2", "C2")],
          [("S2", ⟨⟨"Bea", 21, "b@c.de"⟩, "S2", ["C2"]⟩)], [],
          [("C2", ⟨"C2", "Logic", none, ["S2"]⟩)]⟩ "C2").students =
      [("S2", ⟨⟨"Bea", 21, "b@c.de"⟩, "S2", ["C2"]⟩)] :=
  C3_amended
    ⟨[⟨"S2", "Bea", 21, "b@c.de"⟩], [], [⟨"C2", "Logic", none⟩],
      [("S2", "C2")],
      [("S2", ⟨⟨"Bea", 21, "b@c.de"⟩, "S2", ["C2"]⟩)], [],
      [("C2", ⟨"C2", "Logic", none, ["S2"]⟩)]⟩ "C2"

/-! ### Claim C1 -/

/-- The state reached by the spec's example: create
Student("Ann",20,"a@b.com","S1") and Course("C1","Algebra"), add both to a
fresh manager, and register S1 in C1 (the in-place mutations of the two
objects are visible through the mirror entries holding them). -/
def c1ScenarioDM : DMState :=
  let dm1 := (DataManager.add_student emptyDM ⟨⟨"Ann", 20, "a@b.com"⟩, "S1", []⟩).1
  let dm2 := (DataManager.add_course dm1 ⟨"C1", "Algebra", none, []⟩).1
  let p := Student.register_course ⟨⟨"Ann", 20, "a@b.com"⟩, "S1", []⟩
    ⟨"C1", "Algebra", none, []⟩
  { dm2 with
      students := dictInsert dm2.students "S1" p.1,
      courses := dictInsert dm2.courses "C1" p.2 }

/-- Claim C1: saving the example state and loading it into a fresh manager
does NOT reproduce the relationship graph — `load_data` raises
AttributeError as soon as it meets the course with a null `instructor_id`,
because it passes `None` to `Course.set_instructor`, which dereferences
it.  (Had an instructor been present, the enrollment loop would still
raise AttributeError on the undefined method
`register_student_in_course`.) -/
theorem C1_load_after_save_raises :
    DataManager.save_data c1ScenarioDM =
      ⟨[⟨"Ann", 20, "a@b.com", "S1", ["C1"]⟩], [],
        [⟨"C1", "Algebra", none, ["S1"]⟩]⟩ ∧
    DataManager.load_data emptyDM (DataManager.save_data c1ScenarioDM) =
      Except.error "AttributeError: NoneType object has no attribute assigned_courses" := by
  constructor
  · rfl
  · rfl

/-! ### Claim C9 -/

theorem add_student_instructors (dm : DMState) (s : Student) :
    (DataManager.add_student dm s).1.instructors = dm.instructors := by
  unfold DataManager.add_student
  split <;> rfl

theorem add_instructor_instructors_get (dm : DMState) (i : Instructor)
    (iid : String) (h : i.instructor_id ≠ iid) :
    dictGet (DataManager.add_instructor dm i).1.instructors iid =
      dictGet dm.instructors iid := by
  unfold DataManager.add_instructor
  split
  · rfl
  · simp only
    rw [dictGet_dictInsert, if_neg h]

theorem add_course_instructors (dm : DMState) (c : Course) :
    (DataManager.add_course dm c).1.instructors = dm.instructors := by
  unfold DataManager.add_course
  split
  · rfl
  · split
    · split <;> rfl
    · rfl

theorem loadStudents_ok_instructors :
    ∀ (l : List StudentDict) (dm dm' : DMState),
      DataManager.loadStudents dm l = Except.ok dm' →
      dm'.instructors = dm.instructors := by
  intro l
  induction l with
  | nil =>
    intro dm dm' h
    rw [DataManager.loadStudents] at h
    cases h
    rfl
  | cons sd rest ih =>
    intro dm dm' h
    rw [DataManager.loadStudents] at h
    cases hs : Student.from_dict sd with
    | error e => rw [hs] at h; cases h
    | ok st =>
      rw [hs] at h
      have := ih _ _ h
      rw [this, add_student_instructors]

theorem Instructor.from_dict_ok_id (d : InstructorDict) (ins : Instructor)
    (h : Instructor.from_dict d = Except.ok ins) :
    ins.instructor_id = d.instructor_id := by
  rw [Instructor.from_dict, Instructor.init] at h
  cases hp : Person.init d.name d.age d._email with
  | error e => rw [hp] at h; cases h
  | ok p =>
    rw [hp] at h
    simp only [Except.map] at h
    cases h
    rfl

theorem loadInstructors_get_none :
    ∀ (l : List InstructorDict) (dm dm' : DMState) (iid : String),
      DataManager.loadInstructors dm l = Except.ok dm' →
      iid ∉ l.map InstructorDict.instructor_id →
      dictGet dm.instructors iid = none →
      dictGet dm'.instructors iid = none := by
  intro l
  induction l with
  | nil =>
    intro dm dm' iid h _ hbase
    rw [DataManager.loadInstructors] at h
    cases h
    exact hbase
  | cons idd rest ih =>
    intro dm dm' iid h hnot hbase
    rw [DataManager.loadInstructors] at h
    cases hi : Instructor.from_dict idd with
    | error e => rw [hi] at h; cases h
    | ok ins =>
      rw [hi] at h
      have hne : ins.instructor_id ≠ iid := by
        rw [Instructor.from_dict_ok_id idd ins hi]
        intro hh
        exact hnot (hh ▸ List.mem_map_of_mem InstructorDict.instructor_id
          (List.mem_cons_self idd rest))
      have hnot' : iid ∉ rest.map InstructorDict.instructor_id := fun hh =>
        hnot (List.mem_cons_of_mem _ hh)
      refine ih _ _ _ h hnot' ?_
      rw [add_instructor_instructors_get _ _ _ hne]
      simp only
      rw [dictGet_dictInsert, if_neg hne]
      exact hbase

/-- A course entry of the snapshot whose `instructor_id` lookup will
produce Python `None` in the given state: the id is null, empty (falsy),
or absent from the instructors mirror. -/
def stateBadInstructorRef (dm : DMState) (cd : CourseDict) : Prop :=
  cd.instructor_id = none ∨
    ∃ iid, cd.instructor_id = some iid ∧
      (iid = "" ∨ dictGet dm.instructors iid = none)

theorem instructorLookup_none_of_bad (dm : DMState) (cd : CourseDict)
    (h : stateBadInstructorRef dm cd) :
    DataManager.instructorLookup dm cd.instructor_id = none := by
  rcases h with hnone | ⟨iid, hsome, hempty | habsent⟩
  · rw [hnone]
    rfl
  · rw [hsome]
    simp [DataManager.instructorLookup, hempty]
  · rw [hsome]
    by_cases hempty : iid = ""
    · simp [DataManager.instructorLookup, hempty]
    · simp [DataManager.instructorLookup, hempty, habsent]

theorem instructorLookup_some_get (dm : DMState) (oid : Option String)
    (k : String) (i : Instructor)
    (h : DataManager.instructorLookup dm oid = some (k, i)) :
    dictGet dm.instructors k = some i := by
  cases oid with
  | none => cases h
  | some iid =>
    rw [DataManager.instructorLookup] at h
    by_cases hempty : iid = ""
    · rw [if_pos hempty] at h
      cases h
    · rw [if_neg hempty] at h
      cases hg : dictGet dm.instructors iid with
      | none => rw [hg] at h; cases h
      | some i0 =>
        rw [hg] at h
        simp only [Option.map_some'] at h
        cases h
        exact hg

theorem loadCourseAux_none (dm : DMState) (cd : CourseDict) :
    DataManager.loadCourseAux dm cd none =
      Except.error "AttributeError: NoneType object has no attribute assigned_courses" := rfl

theorem loadCourseAux_some_get_none (dm dm' : DMState) (cd : CourseDict)
    (k : String) (i : Instructor) (iid : String)
    (h : DataManager.loadCourseAux dm cd (some (k, i)) = Except.ok dm')
    (hk : dictGet dm.instructors k = some i)
    (hbase : dictGet dm.instructors iid = none) :
    dictGet dm'.instructors iid = none := by
  have hne : k ≠ iid := fun hh => by
    rw [hh, hbase] at hk
    cases hk
  by_cases hmem : (Course.from_dict cd).course_id ∈ i.assigned_courses
  · simp only [DataManager.loadCourseAux, Course.set_instructor,
      Option.map_some', if_pos hmem] at h
    cases h
    rw [add_course_instructors]
    simp only
    rw [dictGet_dictInsert, if_neg hne]
    exact hbase
  · simp only [DataManager.loadCourseAux, Course.set_instructor,
      Option.map_some', if_neg hmem] at h
    cases h
    rw [add_course_instructors]
    simp only
    rw [dictGet_dictInsert, if_neg hne]
    exact hbase

theorem loadCourses_bad_error :
    ∀ (l : List CourseDict) (dm : DMState),
      (∃ cd ∈ l, stateBadInstructorRef dm cd) →
      ∃ e, DataManager.loadCourses dm l = Except.error e := by
  intro l
  induction l with
  | nil =>
    intro dm ⟨cd, hmem, _⟩
    cases hmem
  | cons hd rest ih =>
    intro dm ⟨cd, hmem, hbad⟩
    rcases List.mem_cons.mp hmem with hhd | hrest
    · subst hhd
      refine ⟨"AttributeError: NoneType object has no attribute assigned_courses", ?_⟩
      rw [DataManager.loadCourses, DataManager.loadCourseStep,
        instructorLookup_none_of_bad dm cd hbad, loadCourseAux_none,
        exceptBind_error]
    · cases hstep : DataManager.loadCourseStep dm hd with
      | error e =>
        refine ⟨e, ?_⟩
        rw [DataManager.loadCourses, hstep, exceptBind_error]
      | ok dm1 =>
        have hbad1 : stateBadInstructorRef dm1 cd := by
          rcases hbad with hnone | ⟨iid, hsome, hempty | habsent⟩
          · exact Or.inl hnone
          · exact Or.inr ⟨iid, hsome, Or.inl hempty⟩
          · refine Or.inr ⟨iid, hsome, Or.inr ?_⟩
            rw [DataManager.loadCourseStep] at hstep
            cases hl : DataManager.instructorLookup dm hd.instructor_id with
            | none =>
              rw [hl, loadCourseAux_none] at hstep
              cases hstep
            | some ki =>
              obtain ⟨k, i⟩ := ki
              rw [hl] at hstep
              exact loadCourseAux_some_get_none dm dm1 hd k i iid hstep
                (instructorLookup_some_get dm hd.instructor_id k i hl) habsent
        obtain ⟨e, he⟩ := ih dm1 ⟨cd, hrest, hbad1⟩
        refine ⟨e, ?_⟩
        rw [DataManager.loadCourses, hstep, exceptBind_ok, he]

/-- A course entry of the snapshot whose `instructor_id` is null or names
no instructor of the snapshot (the mirror `load_data` builds holds exactly
the snapshot's instructor ids). -/
def badInstructorRef (doc : SaveDoc) (cd : CourseDict) : Prop :=
  cd.instructor_id ∉ doc.instructors.map fun idoc => some idoc.instructor_id

instance (doc : SaveDoc) (cd : CourseDict) :
    Decidable (badInstructorRef doc cd) := by
  unfold badInstructorRef; infer_instance

/-- Claim C9: `Course.set_instructor(None)` first performs the partial
mutation `self.instructor = None` and then raises AttributeError on
`None.assigned_courses`, so the instructor reference cannot be cleared
through `set_instructor`; consequently `load_data` raises for every
snapshot containing a course whose `instructor_id` is null or names an
instructor absent from the freshly-built instructors mirror, since it
passes the `None` lookup result to `set_instructor`. -/
theorem C9_set_instructor_none_raises :
    (∀ c : Course, Course.set_instructor c none =
      ({ c with instructor := none },
       Except.error "AttributeError: NoneType object has no attribute assigned_courses")) ∧
    (∀ (dm : DMState) (doc : SaveDoc),
      (∃ cd ∈ doc.courses, badInstructorRef doc cd) →
      ∃ e, DataManager.load_data dm doc = Except.error e) := by
  constructor
  · intro c
    rfl
  · intro dm doc ⟨cd, hmem, hbad⟩
    cases h1 : DataManager.loadStudents { dm with students := [] } doc.students with
    | error e =>
      exact ⟨e, by rw [DataManager.load_data, h1, exceptBind_error]⟩
    | ok dm1 =>
      cases h2 : DataManager.loadInstructors { dm1 with instructors := [] }
          doc.instructors with
      | error e =>
        exact ⟨e, by rw [DataManager.load_data, h1, exceptBind_ok, h2,
          exceptBind_error]⟩
      | ok dm2 =>
        have hstateBad : stateBadInstructorRef { dm2 with courses := [] } cd := by
          cases hci : cd.instructor_id with
          | none => exact Or.inl hci
          | some iid =>
            by_cases hempty : iid = ""
            · exact Or.inr ⟨iid, hci, Or.inl hempty⟩
            · refine Or.inr ⟨iid, hci, Or.inr ?_⟩
              have hnotin : iid ∉ doc.instructors.map InstructorDict.instructor_id := by
                intro hin
                apply hbad
                rw [hci]
                rcases List.mem_map.mp hin with ⟨idoc, hidoc, hid⟩
                exact List.mem_map.mpr ⟨idoc, hidoc, by rw [hid]⟩
              show dictGet dm2.instructors iid = none
              exact loadInstructors_get_none doc.instructors
                { dm1 with instructors := [] } dm2 iid h2 hnotin rfl
        obtain ⟨e, he⟩ := loadCourses_bad_error doc.courses
          { dm2 with courses := [] } ⟨cd, hmem, hstateBad⟩
        exact ⟨e, by rw [DataManager.load_data, h1, exceptBind_ok, h2,
          exceptBind_ok, he, exceptBind_error]⟩

/-- Claim C9, witness: a snapshot holding one course with a null
`instructor_id` makes `load_data` on a fresh manager raise. -/
theorem C9_witness :
    ∃ e, DataManager.load_data emptyDM
        ⟨[], [], [⟨"C9", "Sets", none, []⟩]⟩ = Except.error e :=
  C9_set_instructor_none_raises.2 emptyDM ⟨[], [], [⟨"C9", "Sets", none, []⟩]⟩
    ⟨⟨"C9", "Sets", none, []⟩, by decide, by decide⟩
